import Mathlib

/-!
stepmanutil: collection path resolution and step-version lookup.

A shallow embedding of `src/stepmanutil/stepmanutil.go`.

* Go's multiple return values are kept as tuples: `(value, err)` with
  `err : Option String`, where `none` is Go's `nil` error and `some msg` is an
  error whose `Error()` text is `msg` (every error built in this package comes
  from `fmt.Errorf` without `%w`, so it is exactly its message).
* Go maps decoded from JSON are association lists read with `List.lookup`;
  the package only ever indexes them.
* Everything the package calls but does not define (`pathutil.AbsPath`,
  `fileutil.ReadBytesFromFile`, `os.Open`, `encoding/json`) is a field of
  `World`; the calls are read-only, and each one is recorded in `World.log`.
-/

namespace Stepmanutil

/-- Contents of a file (`[]byte`). -/
abbrev Bytes := List UInt8

/-- A Go `error` value: `none` is `nil`, `some msg` has `Error() = msg`. -/
abbrev GoError := Option String

/-- One call that reaches outside the package. -/
inductive Access where
  | absPath (pth : String)
  | readFile (pth : String)
  | openFile (pth : String)
  deriving DecidableEq, Repr

/-- StepInputModel ... -/
structure StepInputModel where
  Key : String
  Description : String
  DefaultValue : String
  ValueOptions : List String
  IsExpand : Bool
  deriving DecidableEq, Repr

/-- StepVersionModel ... -/
structure StepVersionModel where
  Title : String
  Description : String
  Inputs : List StepInputModel
  deriving DecidableEq, Repr

/-- StepInfoModel ... -/
structure StepInfoModel where
  LatestVersion : String
  StepVersions : List (String × StepVersionModel)
  deriving DecidableEq, Repr

/-- SpecJSONModel ... -/
structure SpecJSONModel where
  Steps : List (String × StepInfoModel)
  deriving DecidableEq, Repr

/-- The zero value `StepVersionModel{}`. -/
def StepVersionModel.zero : StepVersionModel :=
  { Title := "", Description := "", Inputs := [] }

/-- What a call can observe outside the package, and the record of the calls
made so far.  `AbsPath` is `pathutil.AbsPath`, `ReadBytesFromFile` is
`fileutil.ReadBytesFromFile`, `Open` is `os.Open` (giving the bytes the handle
streams), `Unmarshal` is `json.Unmarshal` into a `map[string]string`, and
`DecodeSpec` is `json.NewDecoder(file).Decode` into a `SpecJSONModel`.  A
failing call carries the text of its error. -/
structure World where
  AbsPath : String → Except String String
  ReadBytesFromFile : String → Except String Bytes
  Open : String → Except String Bytes
  Unmarshal : Bytes → Except String (List (String × String))
  DecodeSpec : Bytes → Except String SpecJSONModel
  log : List Access

/-- Append one entry to the record of calls. -/
def World.note (w : World) (a : Access) : World :=
  { w with log := w.log ++ [a] }

/-- The paths handed to `os.Open` in a record of calls. -/
def opens : List Access → List String
  | [] => []
  | Access.openFile p :: rest => p :: opens rest
  | _ :: rest => opens rest

/-- hardcoded, while stepman does not have this feature -/
def stepmanRoutesPath : String := "~/.stepman/routing.json"

/-- The format `"~/.stepman/step_collections/%s/spec/spec.json"` applied to
`val`. -/
def specPathOf (val : String) : String :=
  "~/.stepman/step_collections/" ++ val ++ "/spec/spec.json"

/-- specJSONPathOfCollection (lines 98-124). -/
def specJSONPathOfCollection (w : World) (collectionID : String) :
    (String × GoError) × World :=
  let w1 := w.note (Access.absPath stepmanRoutesPath)
  match w.AbsPath stepmanRoutesPath with
  | .error err =>
    (("", some ("Failed to get absolut path for stepman routing file: " ++ err)), w1)
  | .ok routesAbsPath =>
    let w2 := w1.note (Access.readFile routesAbsPath)
    match w1.ReadBytesFromFile routesAbsPath with
    | .error err =>
      (("", some ("Failed to read content of routing file: " ++ err)), w2)
    | .ok bytes =>
      match w2.Unmarshal bytes with
      | .error err =>
        (("", some ("Failed to parse content of routing file: " ++ err)), w2)
      | .ok routeMap =>
        match routeMap.lookup collectionID with
        | none =>
          (("", some ("Specified collection (" ++ collectionID ++ ") not found in routing")), w2)
        | some val =>
          let specPath := specPathOf val
          let w3 := w2.note (Access.absPath specPath)
          match w2.AbsPath specPath with
          | .error _ => (("", some "Failed to get absolute path of spec.json"), w3)
          | .ok absSpecJSONPath => ((absSpecJSONPath, none), w3)

/-- ReadStepCollectionModel (lines 46-61).  `models.StepCollectionModel` is
declared outside the package: `M` is that type, `zero` its zero value and
`decode` is `json.NewDecoder(file).Decode` into it. -/
def ReadStepCollectionModel {M : Type} (zero : M) (decode : Bytes → Except String M)
    (w : World) (collectionID : String) : (M × GoError) × World :=
  match specJSONPathOfCollection w collectionID with
  | ((_, some err), w1) => ((zero, some ("Failed to get spec json path: " ++ err)), w1)
  | ((specJSONPath, none), w1) =>
    let w2 := w1.note (Access.openFile specJSONPath)
    match w1.Open specJSONPath with
    | .error err => ((zero, some ("Failed to open spec json: " ++ err)), w2)
    | .ok file =>
      match decode file with
      | .error err => ((zero, some ("Failed to parse spec json: " ++ err)), w2)
      | .ok spec => ((spec, none), w2)

/-- ReadStepVersionInfo (lines 66-96).
If `stepVersion` is empty, the function will return with the latest
available version of the step. -/
def ReadStepVersionInfo (w : World) (collectionID stepID stepVersion : String) :
    (StepVersionModel × String × GoError) × World :=
  match specJSONPathOfCollection w collectionID with
  | ((_, some err), w1) =>
    ((StepVersionModel.zero, "", some ("Failed to get spec json path: " ++ err)), w1)
  | ((specJSONPath, none), w1) =>
    let w2 := w1.note (Access.openFile specJSONPath)
    match w1.Open specJSONPath with
    | .error err =>
      ((StepVersionModel.zero, "", some ("Failed to open spec json: " ++ err)), w2)
    | .ok file =>
      match w2.DecodeSpec file with
      | .error err =>
        ((StepVersionModel.zero, "", some ("Failed to parse spec json: " ++ err)), w2)
      | .ok spec =>
        match spec.Steps.lookup stepID with
        | none =>
          ((StepVersionModel.zero, "", some ("No Step found for ID: " ++ stepID)), w2)
        | some stepInfo =>
          let stepVersion := if stepVersion = "" then stepInfo.LatestVersion else stepVersion
          match stepInfo.StepVersions.lookup stepVersion with
          | none =>
            ((StepVersionModel.zero, "",
              some ("No Step version found for (ID: " ++ stepID ++ ") (version: "
                ++ stepVersion ++ ")")), w2)
          | some stepVersionInfo => ((stepVersionInfo, stepVersion, none), w2)

/-! ### A concrete world used to run the definitions -/

/-- Record `A` of the worked example. -/
def recA : StepVersionModel :=
  { Title := "Script", Description := "first release", Inputs := [] }

/-- Record `B` of the worked example. -/
def recB : StepVersionModel :=
  { Title := "Script", Description := "second release",
    Inputs := [{ Key := "content", Description := "the script", DefaultValue := "",
                 ValueOptions := [], IsExpand := true }] }

/-- A spec document with one step `script`, versions `1.0.0 ↦ A`, `2.0.0 ↦ B`,
latest `2.0.0`, and one step `dangling` whose latest version is not listed. -/
def demoSpec : SpecJSONModel :=
  { Steps := [("script", { LatestVersion := "2.0.0",
                           StepVersions := [("1.0.0", recA), ("2.0.0", recB)] }),
              ("dangling", { LatestVersion := "9.9.9",
                             StepVersions := [("1.0.0", recA)] })] }

/-- A home directory `/home/u` with a routing file mapping `lib ↦ tok` and a
spec file for `tok`; file contents are told apart by their first byte only. -/
def demoWorld : World :=
  { AbsPath := fun p =>
      if p = "~/.stepman/routing.json" then .ok "/home/u/.stepman/routing.json"
      else if p = "~/.stepman/step_collections/tok/spec/spec.json" then
        .ok "/home/u/.stepman/step_collections/tok/spec/spec.json"
      else .error "getwd: no such file or directory"
    ReadBytesFromFile := fun p =>
      if p = "/home/u/.stepman/routing.json" then .ok [1]
      else .error ("No file found at path: " ++ p)
    Open := fun p =>
      if p = "/home/u/.stepman/step_collections/tok/spec/spec.json" then .ok [2]
      else .error ("open " ++ p ++ ": no such file or directory")
    Unmarshal := fun b =>
      match b with
      | [1] => .ok [("lib", "tok"), ("other", "elsewhere")]
      | _ => .error "unexpected end of JSON input"
    DecodeSpec := fun b =>
      match b with
      | [2] => .ok demoSpec
      | _ => .error "EOF"
    log := [] }

/-- The same world, except that expanding the spec path fails. -/
def brokenWorld : World :=
  { demoWorld with
    AbsPath := fun p =>
      if p = "~/.stepman/routing.json" then .ok "/home/u/.stepman/routing.json"
      else .error "getwd: no such file or directory" }

/-- The example world with a routing file that does not parse. -/
def badRoutesWorld : World :=
  { demoWorld with
    ReadBytesFromFile := fun p =>
      if p = "/home/u/.stepman/routing.json" then .ok [9]
      else .error ("No file found at path: " ++ p) }

/-- The example world with a spec file that does not decode. -/
def badSpecWorld : World :=
  { demoWorld with
    Open := fun p =>
      if p = "/home/u/.stepman/step_collections/tok/spec/spec.json" then .ok [7]
      else .error ("open " ++ p ++ ": no such file or directory") }

/-- A stand-in for `models.StepCollectionModel` when running the collection
reader: the list of step IDs of the document. -/
def demoDecodeCollection (b : Bytes) : Except String (List String) :=
  match b with
  | [2] => .ok ["script", "dangling"]
  | _ => .error "EOF"

/-- JSON whitespace: space, tab, line feed, carriage return. -/
def isJSONSpace (b : UInt8) : Bool :=
  b == 32 || b == 9 || b == 10 || b == 13

/-- A necessary condition for a file to hold one JSON object and nothing
else: the first byte after leading whitespace is an opening brace (123) and
the last byte before trailing whitespace is a closing brace (125). -/
def looksLikeJSONObject (b : Bytes) : Bool :=
  (b.dropWhile isJSONSpace).head? == some 123 &&
    (b.reverse.dropWhile isJSONSpace).head? == some 125

/-- The four bytes of the text `null`. -/
def nullBytes : Bytes := [110, 117, 108, 108]

/-- The bytes of an object with an empty `steps` object, followed by the
letter `x`. -/
def trailingBytes : Bytes :=
  [123, 34, 115, 116, 101, 112, 115, 34, 58, 123, 125, 125, 120]

/-- The example world with a routing file that holds `null`; `json.Unmarshal`
of `null` into a map reports no error and leaves the map nil. -/
def nullRoutesWorld : World :=
  { demoWorld with
    ReadBytesFromFile := fun p =>
      if p = "/home/u/.stepman/routing.json" then .ok nullBytes
      else .error ("No file found at path: " ++ p)
    Unmarshal := fun b => if b = nullBytes then .ok [] else demoWorld.Unmarshal b }

/-- The example world with a spec file that holds `trailingBytes`; the stream
decoder returns after the first JSON value and does not look at what follows. -/
def trailingSpecWorld : World :=
  { demoWorld with
    Open := fun p =>
      if p = "/home/u/.stepman/step_collections/tok/spec/spec.json" then .ok trailingBytes
      else .error ("open " ++ p ++ ": no such file or directory")
    DecodeSpec := fun b =>
      if b = trailingBytes then .ok { Steps := [] } else demoWorld.DecodeSpec b }

/-- A home directory `/home/u` whose routing file maps `lib` to the token
`$REL`; `pathutil.AbsPath` expands environment variables, and `rel` is the
value of `REL`.  Files and JSON decoding do not depend on `rel`. -/
def relWorld (rel : String) : World :=
  { AbsPath := fun p =>
      if p = "~" then .ok "/home/u"
      else if p = "~/.stepman/routing.json" then .ok "/home/u/.stepman/routing.json"
      else if p = "~/.stepman/step_collections/$REL/spec/spec.json" then
        .ok ("/home/u/.stepman/step_collections/" ++ rel ++ "/spec/spec.json")
      else .error "getwd: no such file or directory"
    ReadBytesFromFile := fun p =>
      if p = "/home/u/.stepman/routing.json" then .ok [3]
      else .error ("No file found at path: " ++ p)
    Open := fun p => .error ("open " ++ p ++ ": no such file or directory")
    Unmarshal := fun b =>
      match b with
      | [3] => .ok [("lib", "$REL")]
      | _ => .error "unexpected end of JSON input"
    DecodeSpec := fun _ => .error "EOF"
    log := [] }

/-- The example world with one more file, at a path no call looks at. -/
def extraFileWorld : World :=
  { demoWorld with
    ReadBytesFromFile := fun p =>
      if p = "/tmp/unrelated.json" then .ok [5] else demoWorld.ReadBytesFromFile p
    Open := fun p => if p = "/tmp/unrelated.json" then .ok [5] else demoWorld.Open p }

/-- The outside calls that a run for `collectionID` makes in `w` get the same
answer in `w2`: expanding the routing path, reading the routing file at the
expanded path, decoding the bytes read, expanding the spec path of the token
found, opening the file at the resolved path, and decoding what it holds with
either decoder.  Nothing is asked of calls the run does not make. -/
def agreeOnCalls {M : Type} (decode decode2 : Bytes → Except String M) (w w2 : World)
    (collectionID : String) : Prop :=
  w.AbsPath stepmanRoutesPath = w2.AbsPath stepmanRoutesPath ∧
  (∀ routesAbsPath, w.AbsPath stepmanRoutesPath = .ok routesAbsPath →
    w.ReadBytesFromFile routesAbsPath = w2.ReadBytesFromFile routesAbsPath) ∧
  (∀ routesAbsPath bytes, w.AbsPath stepmanRoutesPath = .ok routesAbsPath →
    w.ReadBytesFromFile routesAbsPath = .ok bytes → w.Unmarshal bytes = w2.Unmarshal bytes) ∧
  (∀ routesAbsPath bytes routeMap val, w.AbsPath stepmanRoutesPath = .ok routesAbsPath →
    w.ReadBytesFromFile routesAbsPath = .ok bytes → w.Unmarshal bytes = .ok routeMap →
    routeMap.lookup collectionID = some val →
    w.AbsPath (specPathOf val) = w2.AbsPath (specPathOf val)) ∧
  (∀ specJSONPath, (specJSONPathOfCollection w collectionID).1 = (specJSONPath, none) →
    w.Open specJSONPath = w2.Open specJSONPath) ∧
  (∀ specJSONPath file, (specJSONPathOfCollection w collectionID).1 = (specJSONPath, none) →
    w.Open specJSONPath = .ok file →
    w.DecodeSpec file = w2.DecodeSpec file ∧ decode file = decode2 file)

/-- One string occurs inside another. -/
def occursIn (cause msg : String) : Prop :=
  ∃ pre post : String, msg = pre ++ cause ++ post

/-! ### Basic facts about the record of calls -/

@[simp] theorem note_AbsPath (w : World) (a : Access) : (w.note a).AbsPath = w.AbsPath := rfl

@[simp] theorem note_ReadBytesFromFile (w : World) (a : Access) :
    (w.note a).ReadBytesFromFile = w.ReadBytesFromFile := rfl

@[simp] theorem note_Open (w : World) (a : Access) : (w.note a).Open = w.Open := rfl

@[simp] theorem note_Unmarshal (w : World) (a : Access) :
    (w.note a).Unmarshal = w.Unmarshal := rfl

@[simp] theorem note_DecodeSpec (w : World) (a : Access) :
    (w.note a).DecodeSpec = w.DecodeSpec := rfl

@[simp] theorem note_log (w : World) (a : Access) : (w.note a).log = w.log ++ [a] := rfl

theorem opens_append (l₁ l₂ : List Access) : opens (l₁ ++ l₂) = opens l₁ ++ opens l₂ := by
  induction l₁ with
  | nil => rfl
  | cons a rest ih => cases a <;> simp [opens, ih]

@[simp] theorem opens_note_absPath (w : World) (p : String) :
    opens (w.note (Access.absPath p)).log = opens w.log := by
  simp [opens_append, opens]

@[simp] theorem opens_note_readFile (w : World) (p : String) :
    opens (w.note (Access.readFile p)).log = opens w.log := by
  simp [opens_append, opens]

/-- What the path resolver returns, read off the world it starts in. -/
theorem specJSONPathOfCollection_result (w : World) (collectionID : String) :
    (specJSONPathOfCollection w collectionID).1 =
      match w.AbsPath stepmanRoutesPath with
      | .error err => ("", some ("Failed to get absolut path for stepman routing file: " ++ err))
      | .ok routesAbsPath =>
        match w.ReadBytesFromFile routesAbsPath with
        | .error err => ("", some ("Failed to read content of routing file: " ++ err))
        | .ok bytes =>
          match w.Unmarshal bytes with
          | .error err => ("", some ("Failed to parse content of routing file: " ++ err))
          | .ok routeMap =>
            match routeMap.lookup collectionID with
            | none =>
              ("", some ("Specified collection (" ++ collectionID ++ ") not found in routing"))
            | some val =>
              match w.AbsPath (specPathOf val) with
              | .error _ => ("", some "Failed to get absolute path of spec.json")
              | .ok absSpecJSONPath => (absSpecJSONPath, none) := by
  unfold specJSONPathOfCollection
  simp only [note_AbsPath, note_ReadBytesFromFile, note_Unmarshal]
  repeat' split
  all_goals rfl

/-- The resolver only reads: the world it leaves answers every call as before,
and it hands nothing to `os.Open`. -/
theorem specJSONPathOfCollection_frame (w : World) (collectionID : String) :
    (specJSONPathOfCollection w collectionID).2.AbsPath = w.AbsPath ∧
    (specJSONPathOfCollection w collectionID).2.ReadBytesFromFile = w.ReadBytesFromFile ∧
    (specJSONPathOfCollection w collectionID).2.Open = w.Open ∧
    (specJSONPathOfCollection w collectionID).2.Unmarshal = w.Unmarshal ∧
    (specJSONPathOfCollection w collectionID).2.DecodeSpec = w.DecodeSpec ∧
    opens (specJSONPathOfCollection w collectionID).2.log = opens w.log := by
  unfold specJSONPathOfCollection
  simp only [note_AbsPath, note_ReadBytesFromFile, note_Unmarshal]
  repeat' split
  all_goals simp [opens_append, opens]

/-- What the version lookup returns once the resolver gave a path: the rest of
the function, read off the starting world. -/
theorem ReadStepVersionInfo_of_path (w : World) (collectionID stepID stepVersion path : String)
    (hpath : (specJSONPathOfCollection w collectionID).1 = (path, none)) :
    (ReadStepVersionInfo w collectionID stepID stepVersion).1 =
      match w.Open path with
      | .error err => (StepVersionModel.zero, "", some ("Failed to open spec json: " ++ err))
      | .ok file =>
        match w.DecodeSpec file with
        | .error err => (StepVersionModel.zero, "", some ("Failed to parse spec json: " ++ err))
        | .ok spec =>
          match spec.Steps.lookup stepID with
          | none => (StepVersionModel.zero, "", some ("No Step found for ID: " ++ stepID))
          | some stepInfo =>
            match stepInfo.StepVersions.lookup
                (if stepVersion = "" then stepInfo.LatestVersion else stepVersion) with
            | none =>
              (StepVersionModel.zero, "",
                some ("No Step version found for (ID: " ++ stepID ++ ") (version: "
                  ++ (if stepVersion = "" then stepInfo.LatestVersion else stepVersion) ++ ")"))
            | some stepVersionInfo =>
              (stepVersionInfo,
                (if stepVersion = "" then stepInfo.LatestVersion else stepVersion), none) := by
  have hframe := specJSONPathOfCollection_frame w collectionID
  obtain ⟨-, -, hO, -, hD, -⟩ := hframe
  unfold ReadStepVersionInfo
  rcases hres : specJSONPathOfCollection w collectionID with ⟨⟨p, e⟩, w1⟩
  rw [hres] at hpath hO hD
  simp only at hpath hO hD
  obtain ⟨rfl, rfl⟩ := Prod.mk.inj hpath
  simp only [note_DecodeSpec, hO, hD]
  repeat' split
  all_goals rfl

/-- The world the version lookup leaves behind does not depend on the step or
the version asked for: it is the resolver's world, plus one `os.Open` when the
resolver gave a path. -/
theorem ReadStepVersionInfo_world (w : World) (collectionID stepID stepVersion : String) :
    (ReadStepVersionInfo w collectionID stepID stepVersion).2 =
      match specJSONPathOfCollection w collectionID with
      | ((_, some _), w1) => w1
      | ((specJSONPath, none), w1) => w1.note (Access.openFile specJSONPath) := by
  unfold ReadStepVersionInfo
  rcases specJSONPathOfCollection w collectionID with ⟨⟨p, e⟩, w1⟩
  cases e with
  | some err => rfl
  | none =>
    simp only
    cases w1.Open p with
    | error err => rfl
    | ok file =>
      simp only
      cases (w1.note (Access.openFile p)).DecodeSpec file with
      | error err => rfl
      | ok spec =>
        simp only
        cases List.lookup stepID spec.Steps with
        | none => rfl
        | some stepInfo =>
          simp only
          split <;> rfl

/-! ### Step-version lookup -/

/-- C1. When the collection resolves to `path`, the file at `path` opens and
decodes to `spec`, the step is a key of `spec.Steps`, and the effective version
(the step's `LatestVersion` for an empty request, the request otherwise) is a
key of the step's versions, the lookup returns the record stored under the
effective version, the effective version itself, and a nil error. -/
theorem ReadStepVersionInfo_returns_stored_record
    (w : World) (collectionID stepID stepVersion path : String) (file : Bytes)
    (spec : SpecJSONModel) (stepInfo : StepInfoModel) (record : StepVersionModel)
    (hpath : (specJSONPathOfCollection w collectionID).1 = (path, none))
    (hopen : w.Open path = .ok file)
    (hdec : w.DecodeSpec file = .ok spec)
    (hstep : spec.Steps.lookup stepID = some stepInfo)
    (hver : stepInfo.StepVersions.lookup
        (if stepVersion = "" then stepInfo.LatestVersion else stepVersion) = some record) :
    (ReadStepVersionInfo w collectionID stepID stepVersion).1 =
      (record, (if stepVersion = "" then stepInfo.LatestVersion else stepVersion), none) := by
  rw [ReadStepVersionInfo_of_path w collectionID stepID stepVersion path hpath]
  simp only [hopen, hdec, hstep, hver]

/-- The worked example of C1: versions `1.0.0 ↦ A`, `2.0.0 ↦ B`, latest
`2.0.0`; an empty request returns `B` and `2.0.0`. -/
theorem ReadStepVersionInfo_returns_stored_record_witness :
    (specJSONPathOfCollection demoWorld "lib").1 =
        ("/home/u/.stepman/step_collections/tok/spec/spec.json", none) ∧
      demoWorld.Open "/home/u/.stepman/step_collections/tok/spec/spec.json" = .ok [2] ∧
      demoWorld.DecodeSpec [2] = .ok demoSpec ∧
      demoSpec.Steps.lookup "script" =
        some { LatestVersion := "2.0.0", StepVersions := [("1.0.0", recA), ("2.0.0", recB)] } ∧
      (ReadStepVersionInfo demoWorld "lib" "script" "").1 = (recB, "2.0.0", none) :=
  ⟨by decide, by rfl, by rfl, by decide,
   ReadStepVersionInfo_returns_stored_record demoWorld "lib" "script" ""
     "/home/u/.stepman/step_collections/tok/spec/spec.json" [2] demoSpec
     { LatestVersion := "2.0.0", StepVersions := [("1.0.0", recA), ("2.0.0", recB)] } recB
     (by decide) (by rfl) (by rfl) (by decide) (by decide)⟩

/-- The worked example for arbitrary records `A` and `B`: whenever the decoded
document lists the step with versions `1.0.0 ↦ A`, `2.0.0 ↦ B` and latest
`2.0.0`, an empty request returns `B` and `2.0.0`. -/
theorem ReadStepVersionInfo_latest_of_two
    (w : World) (collectionID stepID path : String) (file : Bytes) (spec : SpecJSONModel)
    (A B : StepVersionModel)
    (hpath : (specJSONPathOfCollection w collectionID).1 = (path, none))
    (hopen : w.Open path = .ok file)
    (hdec : w.DecodeSpec file = .ok spec)
    (hstep : spec.Steps.lookup stepID =
      some { LatestVersion := "2.0.0", StepVersions := [("1.0.0", A), ("2.0.0", B)] }) :
    (ReadStepVersionInfo w collectionID stepID "").1 = (B, "2.0.0", none) := by
  rw [ReadStepVersionInfo_of_path w collectionID stepID "" path hpath]
  simp only [hopen, hdec, hstep]
  have h : List.lookup "2.0.0" [("1.0.0", A), ("2.0.0", B)] = some B := by
    simp [List.lookup]
  simp [h]

/-- C2. For a step present in the decoded document, asking for the empty
version and asking for the step's `LatestVersion` give the same return values
and leave the same world. -/
theorem ReadStepVersionInfo_empty_eq_latest
    (w : World) (collectionID stepID path : String) (file : Bytes)
    (spec : SpecJSONModel) (stepInfo : StepInfoModel)
    (hpath : (specJSONPathOfCollection w collectionID).1 = (path, none))
    (hopen : w.Open path = .ok file)
    (hdec : w.DecodeSpec file = .ok spec)
    (hstep : spec.Steps.lookup stepID = some stepInfo) :
    ReadStepVersionInfo w collectionID stepID "" =
      ReadStepVersionInfo w collectionID stepID stepInfo.LatestVersion := by
  apply Prod.ext
  · rw [ReadStepVersionInfo_of_path w collectionID stepID "" path hpath,
      ReadStepVersionInfo_of_path w collectionID stepID stepInfo.LatestVersion path hpath]
    simp only [hopen, hdec, hstep]
    by_cases hL : stepInfo.LatestVersion = ""
    · simp [hL]
    · simp [hL]
  · rw [ReadStepVersionInfo_world, ReadStepVersionInfo_world]

/-- C2 at the example document, for a listed latest version and for a dangling
one. -/
theorem ReadStepVersionInfo_empty_eq_latest_witness :
    ReadStepVersionInfo demoWorld "lib" "script" "" =
        ReadStepVersionInfo demoWorld "lib" "script" "2.0.0" ∧
      ReadStepVersionInfo demoWorld "lib" "dangling" "" =
        ReadStepVersionInfo demoWorld "lib" "dangling" "9.9.9" :=
  ⟨ReadStepVersionInfo_empty_eq_latest demoWorld "lib" "script"
      "/home/u/.stepman/step_collections/tok/spec/spec.json" [2] demoSpec
      { LatestVersion := "2.0.0", StepVersions := [("1.0.0", recA), ("2.0.0", recB)] }
      (by decide) (by rfl) (by rfl) (by decide),
   ReadStepVersionInfo_empty_eq_latest demoWorld "lib" "dangling"
      "/home/u/.stepman/step_collections/tok/spec/spec.json" [2] demoSpec
      { LatestVersion := "9.9.9", StepVersions := [("1.0.0", recA)] }
      (by decide) (by rfl) (by rfl) (by decide)⟩

/-! ### Path resolution -/

/-- C3, as stated, fails: the routing file is read and parsed, `lib` is a key
with token `tok`, and the resolver still fails, because expanding the spec path
fails (lines 118-121). -/
theorem specJSONPathOfCollection_present_key_can_fail :
    brokenWorld.AbsPath stepmanRoutesPath = .ok "/home/u/.stepman/routing.json" ∧
      brokenWorld.ReadBytesFromFile "/home/u/.stepman/routing.json" = .ok [1] ∧
      brokenWorld.Unmarshal [1] = .ok [("lib", "tok"), ("other", "elsewhere")] ∧
      List.lookup "lib" [("lib", "tok"), ("other", "elsewhere")] = some "tok" ∧
      (specJSONPathOfCollection brokenWorld "lib").1 =
        ("", some "Failed to get absolute path of spec.json") :=
  ⟨by rfl, by rfl, by rfl, by decide, by decide⟩

/-- C3, amended.  With the routing file read and parsed into `table`:
a key with token `t` gives the absolute form of
`~/.stepman/step_collections/<t>/spec/spec.json` and a nil error whenever that
path expands, and the spec-path expansion error with the empty path when it
does not; two keys with the same token give the same result; an absent key
gives the empty path and the collection-not-found error naming the ID. -/
theorem specJSONPathOfCollection_of_table
    (w : World) (collectionID routesAbsPath : String) (bytes : Bytes)
    (table : List (String × String))
    (habs : w.AbsPath stepmanRoutesPath = .ok routesAbsPath)
    (hread : w.ReadBytesFromFile routesAbsPath = .ok bytes)
    (hparse : w.Unmarshal bytes = .ok table) :
    (∀ t, table.lookup collectionID = some t →
      (∀ p, w.AbsPath ("~/.stepman/step_collections/" ++ t ++ "/spec/spec.json") = .ok p →
        (specJSONPathOfCollection w collectionID).1 = (p, none)) ∧
      (∀ cause,
        w.AbsPath ("~/.stepman/step_collections/" ++ t ++ "/spec/spec.json") = .error cause →
        (specJSONPathOfCollection w collectionID).1 =
          ("", some "Failed to get absolute path of spec.json")) ∧
      (∀ otherID, table.lookup otherID = some t →
        (specJSONPathOfCollection w otherID).1 = (specJSONPathOfCollection w collectionID).1)) ∧
    (table.lookup collectionID = none →
      (specJSONPathOfCollection w collectionID).1 =
        ("", some ("Specified collection (" ++ collectionID ++ ") not found in routing"))) := by
  refine ⟨fun t ht => ⟨fun p hp => ?_, fun cause hc => ?_, fun otherID ho => ?_⟩, fun hnone => ?_⟩
  · rw [specJSONPathOfCollection_result]
    simp only [habs, hread, hparse, ht, specPathOf, hp]
  · rw [specJSONPathOfCollection_result]
    simp only [habs, hread, hparse, ht, specPathOf, hc]
  · rw [specJSONPathOfCollection_result, specJSONPathOfCollection_result]
    simp only [habs, hread, hparse, ht, ho]
  · rw [specJSONPathOfCollection_result]
    simp only [habs, hread, hparse, hnone]

/-- C3 amended, run on the example routing table: `lib` resolves, and `nope`
is reported as not found. -/
theorem specJSONPathOfCollection_of_table_witness :
    (specJSONPathOfCollection demoWorld "lib").1 =
        ("/home/u/.stepman/step_collections/tok/spec/spec.json", none) ∧
      (specJSONPathOfCollection demoWorld "nope").1 =
        ("", some "Specified collection (nope) not found in routing") :=
  ⟨((specJSONPathOfCollection_of_table demoWorld "lib" "/home/u/.stepman/routing.json" [1]
      [("lib", "tok"), ("other", "elsewhere")] (by rfl) (by rfl) (by rfl)).1 "tok"
      (by decide)).1 "/home/u/.stepman/step_collections/tok/spec/spec.json" (by rfl),
   (specJSONPathOfCollection_of_table demoWorld "nope" "/home/u/.stepman/routing.json" [1]
      [("lib", "tok"), ("other", "elsewhere")] (by rfl) (by rfl) (by rfl)).2 (by decide)⟩

/-! ### Lookup failures -/

/-- C4. When the collection resolves and the document decodes to `spec`, a
step ID that is not a key of `spec.Steps` gives the zero record, the empty
version and the error `No Step found for ID: <stepID>`, whatever the version
asked for; that error is never a spec-parse error. -/
theorem ReadStepVersionInfo_step_not_found
    (w : World) (collectionID stepID stepVersion path : String) (file : Bytes)
    (spec : SpecJSONModel)
    (hpath : (specJSONPathOfCollection w collectionID).1 = (path, none))
    (hopen : w.Open path = .ok file)
    (hdec : w.DecodeSpec file = .ok spec)
    (hstep : spec.Steps.lookup stepID = none) :
    (ReadStepVersionInfo w collectionID stepID stepVersion).1 =
        (StepVersionModel.zero, "", some ("No Step found for ID: " ++ stepID)) ∧
      ∀ cause, (ReadStepVersionInfo w collectionID stepID stepVersion).1.2.2 ≠
        some ("Failed to parse spec json: " ++ cause) := by
  have hres : (ReadStepVersionInfo w collectionID stepID stepVersion).1 =
      (StepVersionModel.zero, "", some ("No Step found for ID: " ++ stepID)) := by
    rw [ReadStepVersionInfo_of_path w collectionID stepID stepVersion path hpath]
    simp only [hopen, hdec, hstep]
  refine ⟨hres, fun cause h => ?_⟩
  rw [hres] at h
  have h2 := congrArg String.data (Option.some.inj h)
  simp only [String.data_append] at h2
  simp at h2

/-- C4 on the example document, with and without a version. -/
theorem ReadStepVersionInfo_step_not_found_witness :
    (ReadStepVersionInfo demoWorld "lib" "missing" "").1 =
        (StepVersionModel.zero, "", some "No Step found for ID: missing") ∧
      (ReadStepVersionInfo demoWorld "lib" "missing" "1.0.0").1 =
        (StepVersionModel.zero, "", some "No Step found for ID: missing") :=
  ⟨(ReadStepVersionInfo_step_not_found demoWorld "lib" "missing" ""
      "/home/u/.stepman/step_collections/tok/spec/spec.json" [2] demoSpec
      (by decide) (by rfl) (by rfl) (by decide)).1,
   (ReadStepVersionInfo_step_not_found demoWorld "lib" "missing" "1.0.0"
      "/home/u/.stepman/step_collections/tok/spec/spec.json" [2] demoSpec
      (by decide) (by rfl) (by rfl) (by decide)).1⟩

/-- C5. For a step present in the decoded document, when the effective
version (the step's `LatestVersion` for an empty request, the request
otherwise) is not a key of the step's versions, the lookup gives the zero
record, the empty version and the error
`No Step version found for (ID: <stepID>) (version: <effective version>)`. -/
theorem ReadStepVersionInfo_version_not_found
    (w : World) (collectionID stepID stepVersion path : String) (file : Bytes)
    (spec : SpecJSONModel) (stepInfo : StepInfoModel)
    (hpath : (specJSONPathOfCollection w collectionID).1 = (path, none))
    (hopen : w.Open path = .ok file)
    (hdec : w.DecodeSpec file = .ok spec)
    (hstep : spec.Steps.lookup stepID = some stepInfo)
    (hver : stepInfo.StepVersions.lookup
        (if stepVersion = "" then stepInfo.LatestVersion else stepVersion) = none) :
    (ReadStepVersionInfo w collectionID stepID stepVersion).1 =
      (StepVersionModel.zero, "",
        some ("No Step version found for (ID: " ++ stepID ++ ") (version: "
          ++ (if stepVersion = "" then stepInfo.LatestVersion else stepVersion) ++ ")")) := by
  rw [ReadStepVersionInfo_of_path w collectionID stepID stepVersion path hpath]
  simp only [hopen, hdec, hstep, hver]

/-- C5 on the example document: a dangling latest version is reported by its
own value, and an unknown explicit version by the value asked for. -/
theorem ReadStepVersionInfo_version_not_found_witness :
    (ReadStepVersionInfo demoWorld "lib" "dangling" "").1 =
        (StepVersionModel.zero, "",
          some "No Step version found for (ID: dangling) (version: 9.9.9)") ∧
      (ReadStepVersionInfo demoWorld "lib" "script" "3.0.0").1 =
        (StepVersionModel.zero, "",
          some "No Step version found for (ID: script) (version: 3.0.0)") :=
  ⟨ReadStepVersionInfo_version_not_found demoWorld "lib" "dangling" ""
      "/home/u/.stepman/step_collections/tok/spec/spec.json" [2] demoSpec
      { LatestVersion := "9.9.9", StepVersions := [("1.0.0", recA)] }
      (by decide) (by rfl) (by rfl) (by decide) (by decide),
   ReadStepVersionInfo_version_not_found demoWorld "lib" "script" "3.0.0"
      "/home/u/.stepman/step_collections/tok/spec/spec.json" [2] demoSpec
      { LatestVersion := "2.0.0", StepVersions := [("1.0.0", recA), ("2.0.0", recB)] }
      (by decide) (by rfl) (by rfl) (by decide) (by decide)⟩

/-! ### The readers, read off the starting world -/

/-- What the version lookup returns, in terms of the resolver's return values
and the starting world. -/
theorem ReadStepVersionInfo_result (w : World) (collectionID stepID stepVersion : String) :
    (ReadStepVersionInfo w collectionID stepID stepVersion).1 =
      match (specJSONPathOfCollection w collectionID).1 with
      | (_, some err) =>
        (StepVersionModel.zero, "", some ("Failed to get spec json path: " ++ err))
      | (path, none) =>
        match w.Open path with
        | .error err => (StepVersionModel.zero, "", some ("Failed to open spec json: " ++ err))
        | .ok file =>
          match w.DecodeSpec file with
          | .error err =>
            (StepVersionModel.zero, "", some ("Failed to parse spec json: " ++ err))
          | .ok spec =>
            match spec.Steps.lookup stepID with
            | none => (StepVersionModel.zero, "", some ("No Step found for ID: " ++ stepID))
            | some stepInfo =>
              match stepInfo.StepVersions.lookup
                  (if stepVersion = "" then stepInfo.LatestVersion else stepVersion) with
              | none =>
                (StepVersionModel.zero, "",
                  some ("No Step version found for (ID: " ++ stepID ++ ") (version: "
                    ++ (if stepVersion = "" then stepInfo.LatestVersion else stepVersion)
                    ++ ")"))
              | some stepVersionInfo =>
                (stepVersionInfo,
                  (if stepVersion = "" then stepInfo.LatestVersion else stepVersion), none) := by
  rcases hres : (specJSONPathOfCollection w collectionID).1 with ⟨p, e⟩
  cases e with
  | none => exact ReadStepVersionInfo_of_path w collectionID stepID stepVersion p hres
  | some err =>
    unfold ReadStepVersionInfo
    rcases hfull : specJSONPathOfCollection w collectionID with ⟨⟨p2, e2⟩, w1⟩
    rw [hfull] at hres
    obtain ⟨rfl, rfl⟩ := Prod.mk.inj hres
    rfl

/-- What the collection reader returns, in terms of the resolver's return
values and the starting world. -/
theorem ReadStepCollectionModel_result {M : Type} (zero : M)
    (decode : Bytes → Except String M) (w : World) (collectionID : String) :
    (ReadStepCollectionModel zero decode w collectionID).1 =
      match (specJSONPathOfCollection w collectionID).1 with
      | (_, some err) => (zero, some ("Failed to get spec json path: " ++ err))
      | (path, none) =>
        match w.Open path with
        | .error err => (zero, some ("Failed to open spec json: " ++ err))
        | .ok file =>
          match decode file with
          | .error err => (zero, some ("Failed to parse spec json: " ++ err))
          | .ok spec => (spec, none) := by
  obtain ⟨-, -, hO, -, -, -⟩ := specJSONPathOfCollection_frame w collectionID
  unfold ReadStepCollectionModel
  rcases hfull : specJSONPathOfCollection w collectionID with ⟨⟨p, e⟩, w1⟩
  rw [hfull] at hO
  change w1.Open = w.Open at hO
  cases e with
  | some err => rfl
  | none =>
    simp only [hO]
    cases w.Open p with
    | error err => rfl
    | ok file =>
      simp only
      cases decode file <;> rfl

/-- The world the collection reader leaves behind: the resolver's world, plus
one `os.Open` when the resolver gave a path. -/
theorem ReadStepCollectionModel_world {M : Type} (zero : M)
    (decode : Bytes → Except String M) (w : World) (collectionID : String) :
    (ReadStepCollectionModel zero decode w collectionID).2 =
      match specJSONPathOfCollection w collectionID with
      | ((_, some _), w1) => w1
      | ((specJSONPath, none), w1) => w1.note (Access.openFile specJSONPath) := by
  unfold ReadStepCollectionModel
  rcases specJSONPathOfCollection w collectionID with ⟨⟨p, e⟩, w1⟩
  cases e with
  | some err => rfl
  | none =>
    simp only
    cases w1.Open p with
    | error err => rfl
    | ok file =>
      simp only
      cases decode file <;> rfl

/-- The resolver returns either the empty path with an error, or a path with a
nil error. -/
theorem specJSONPathOfCollection_shape (w : World) (collectionID : String) :
    (∃ e, (specJSONPathOfCollection w collectionID).1 = ("", some e)) ∨
      (∃ p, (specJSONPathOfCollection w collectionID).1 = (p, none)) := by
  rw [specJSONPathOfCollection_result]
  repeat' split
  all_goals simp

/-- The version lookup returns either zero values with an error, or a record
and a version with a nil error. -/
theorem ReadStepVersionInfo_shape (w : World) (collectionID stepID stepVersion : String) :
    (∃ e, (ReadStepVersionInfo w collectionID stepID stepVersion).1 =
        (StepVersionModel.zero, "", some e)) ∨
      (∃ r v, (ReadStepVersionInfo w collectionID stepID stepVersion).1 = (r, v, none)) := by
  rw [ReadStepVersionInfo_result]
  repeat' split
  all_goals simp

/-- The collection reader returns either the zero model with an error, or a
model with a nil error. -/
theorem ReadStepCollectionModel_shape {M : Type} (zero : M)
    (decode : Bytes → Except String M) (w : World) (collectionID : String) :
    (∃ e, (ReadStepCollectionModel zero decode w collectionID).1 = (zero, some e)) ∨
      (∃ m, (ReadStepCollectionModel zero decode w collectionID).1 = (m, none)) := by
  rw [ReadStepCollectionModel_result]
  repeat' split
  all_goals simp

/-! ### Error handling -/

/-- C6. In every world and for every input: a non-nil error from
`ReadStepVersionInfo` comes with the zero record and the empty version, a
non-nil error from `ReadStepCollectionModel` with the zero model, a non-nil
error from `specJSONPathOfCollection` with the empty path; and conversely a
non-zero return value only comes with a nil error. -/
theorem failures_return_zero_values {M : Type} (zero : M)
    (decode : Bytes → Except String M) (w : World)
    (collectionID stepID stepVersion : String) :
    ((ReadStepVersionInfo w collectionID stepID stepVersion).1.2.2 ≠ none →
        (ReadStepVersionInfo w collectionID stepID stepVersion).1.1 = StepVersionModel.zero ∧
        (ReadStepVersionInfo w collectionID stepID stepVersion).1.2.1 = "") ∧
      ((ReadStepCollectionModel zero decode w collectionID).1.2 ≠ none →
        (ReadStepCollectionModel zero decode w collectionID).1.1 = zero) ∧
      ((specJSONPathOfCollection w collectionID).1.2 ≠ none →
        (specJSONPathOfCollection w collectionID).1.1 = "") ∧
      (((ReadStepVersionInfo w collectionID stepID stepVersion).1.1 ≠ StepVersionModel.zero ∨
          (ReadStepVersionInfo w collectionID stepID stepVersion).1.2.1 ≠ "") →
        (ReadStepVersionInfo w collectionID stepID stepVersion).1.2.2 = none) ∧
      ((ReadStepCollectionModel zero decode w collectionID).1.1 ≠ zero →
        (ReadStepCollectionModel zero decode w collectionID).1.2 = none) ∧
      ((specJSONPathOfCollection w collectionID).1.1 ≠ "" →
        (specJSONPathOfCollection w collectionID).1.2 = none) := by
  refine ⟨?_, ?_, ?_, ?_, ?_, ?_⟩
  · rcases ReadStepVersionInfo_shape w collectionID stepID stepVersion with ⟨e, h⟩ | ⟨r, v, h⟩ <;>
      simp [h]
  · rcases ReadStepCollectionModel_shape zero decode w collectionID with ⟨e, h⟩ | ⟨m, h⟩ <;>
      simp [h]
  · rcases specJSONPathOfCollection_shape w collectionID with ⟨e, h⟩ | ⟨p, h⟩ <;> simp [h]
  · rcases ReadStepVersionInfo_shape w collectionID stepID stepVersion with ⟨e, h⟩ | ⟨r, v, h⟩ <;>
      simp [h]
  · rcases ReadStepCollectionModel_shape zero decode w collectionID with ⟨e, h⟩ | ⟨m, h⟩ <;>
      simp [h]
  · rcases specJSONPathOfCollection_shape w collectionID with ⟨e, h⟩ | ⟨p, h⟩ <;> simp [h]

/-- C6 on a failing run of each function: the collection `nope` is not in
the routing table of the example world. -/
theorem failures_return_zero_values_witness :
    ((ReadStepVersionInfo demoWorld "nope" "script" "1.0.0").1.1 = StepVersionModel.zero ∧
        (ReadStepVersionInfo demoWorld "nope" "script" "1.0.0").1.2.1 = "") ∧
      (ReadStepCollectionModel [] demoDecodeCollection demoWorld "nope").1.1 = [] ∧
      (specJSONPathOfCollection demoWorld "nope").1.1 = "" :=
  ⟨(failures_return_zero_values [] demoDecodeCollection demoWorld "nope" "script" "1.0.0").1
      (by decide),
   (failures_return_zero_values [] demoDecodeCollection demoWorld "nope" "script" "1.0.0").2.1
      (by decide),
   (failures_return_zero_values [] demoDecodeCollection demoWorld "nope" "script" "1.0.0").2.2.1
      (by decide)⟩

/-- The first three failing stages of the resolver wrap their cause: the
message is the stage text followed by the cause. -/
theorem specJSONPathOfCollection_wraps_cause (w : World) (collectionID : String) :
    (∀ cause, w.AbsPath stepmanRoutesPath = .error cause →
      (specJSONPathOfCollection w collectionID).1 =
          ("", some ("Failed to get absolut path for stepman routing file: " ++ cause)) ∧
        occursIn cause ("Failed to get absolut path for stepman routing file: " ++ cause)) ∧
    (∀ p cause, w.AbsPath stepmanRoutesPath = .ok p → w.ReadBytesFromFile p = .error cause →
      (specJSONPathOfCollection w collectionID).1 =
          ("", some ("Failed to read content of routing file: " ++ cause)) ∧
        occursIn cause ("Failed to read content of routing file: " ++ cause)) ∧
    (∀ p bytes cause, w.AbsPath stepmanRoutesPath = .ok p → w.ReadBytesFromFile p = .ok bytes →
      w.Unmarshal bytes = .error cause →
      (specJSONPathOfCollection w collectionID).1 =
          ("", some ("Failed to parse content of routing file: " ++ cause)) ∧
        occursIn cause ("Failed to parse content of routing file: " ++ cause)) := by
  have occ : ∀ stage cause : String, occursIn cause (stage ++ cause) :=
    fun stage cause => ⟨stage, "", by simp⟩
  refine ⟨fun cause h1 => ⟨?_, occ _ _⟩, fun p cause h1 h2 => ⟨?_, occ _ _⟩,
    fun p bytes cause h1 h2 h3 => ⟨?_, occ _ _⟩⟩
  · rw [specJSONPathOfCollection_result]; simp only [h1]
  · rw [specJSONPathOfCollection_result]; simp only [h1, h2]
  · rw [specJSONPathOfCollection_result]; simp only [h1, h2, h3]

/-- The messages of the five failing stages of the resolver are pairwise
distinct, whatever the causes and the collection ID. -/
theorem specJSONPathOfCollection_messages_distinct (c₁ c₂ c₃ collectionID : String) :
    [ "Failed to get absolut path for stepman routing file: " ++ c₁,
      "Failed to read content of routing file: " ++ c₂,
      "Failed to parse content of routing file: " ++ c₃,
      "Specified collection (" ++ collectionID ++ ") not found in routing",
      "Failed to get absolute path of spec.json" ].Pairwise (· ≠ ·) := by
  have key : ∀ a b : String, a.data ≠ b.data → a ≠ b := fun a b h e => h (congrArg String.data e)
  simp only [List.pairwise_cons, List.mem_cons, List.mem_singleton, forall_eq_or_imp, forall_eq,
    List.not_mem_nil, List.Pairwise.nil, and_true, false_implies, implies_true]
  refine ⟨⟨?_, ?_, ?_, ?_⟩, ⟨?_, ?_, ?_⟩, ⟨?_, ?_⟩, ?_⟩ <;>
    (apply key; simp [String.data_append])

/-- C7 fails at the fifth stage: in a world where expanding the spec path
fails with `getwd: no such file or directory`, the resolver returns
`Failed to get absolute path of spec.json`, in which the cause does not
occur (line 120 formats no argument, unlike lines 101, 105 and 109). -/
theorem specJSONPathOfCollection_spec_path_error_drops_cause :
    brokenWorld.AbsPath "~/.stepman/step_collections/tok/spec/spec.json" =
        .error "getwd: no such file or directory" ∧
      (specJSONPathOfCollection brokenWorld "lib").1 =
        ("", some "Failed to get absolute path of spec.json") ∧
      ¬ occursIn "getwd: no such file or directory" "Failed to get absolute path of spec.json" := by
  refine ⟨by rfl, by decide, ?_⟩
  rintro ⟨pre, post, h⟩
  have h2 : ':' ∈ ("Failed to get absolute path of spec.json" : String).data := by
    rw [h]; simp [String.data_append]
  revert h2
  decide

/-- C8. When the resolver fails with error `E`, both readers return zero
values with the error `Failed to get spec json path: ` followed by `E`, they
stop in the world the resolver left, and nothing has been handed to
`os.Open` that was not already in the record of calls. -/
theorem readers_propagate_resolver_error {M : Type} (zero : M)
    (decode : Bytes → Except String M) (w : World) (collectionID E : String)
    (hE : (specJSONPathOfCollection w collectionID).1.2 = some E) :
    (∀ stepID stepVersion,
      ReadStepVersionInfo w collectionID stepID stepVersion =
          ((StepVersionModel.zero, "", some ("Failed to get spec json path: " ++ E)),
            (specJSONPathOfCollection w collectionID).2) ∧
        opens (ReadStepVersionInfo w collectionID stepID stepVersion).2.log = opens w.log) ∧
      ReadStepCollectionModel zero decode w collectionID =
        ((zero, some ("Failed to get spec json path: " ++ E)),
          (specJSONPathOfCollection w collectionID).2) ∧
      opens (ReadStepCollectionModel zero decode w collectionID).2.log = opens w.log := by
  obtain ⟨-, -, -, -, -, hlog⟩ := specJSONPathOfCollection_frame w collectionID
  have hV : ∀ stepID stepVersion,
      ReadStepVersionInfo w collectionID stepID stepVersion =
        ((StepVersionModel.zero, "", some ("Failed to get spec json path: " ++ E)),
          (specJSONPathOfCollection w collectionID).2) := by
    intro stepID stepVersion
    unfold ReadStepVersionInfo
    rcases hfull : specJSONPathOfCollection w collectionID with ⟨⟨p, e⟩, w1⟩
    rw [hfull] at hE
    change e = some E at hE
    subst hE
    rfl
  have hC : ReadStepCollectionModel zero decode w collectionID =
      ((zero, some ("Failed to get spec json path: " ++ E)),
        (specJSONPathOfCollection w collectionID).2) := by
    unfold ReadStepCollectionModel
    rcases hfull : specJSONPathOfCollection w collectionID with ⟨⟨p, e⟩, w1⟩
    rw [hfull] at hE
    change e = some E at hE
    subst hE
    rfl
  refine ⟨fun stepID stepVersion => ⟨hV stepID stepVersion, ?_⟩, hC, ?_⟩
  · rw [hV stepID stepVersion]; exact hlog
  · rw [hC]; exact hlog

/-- C8 for a collection absent from the example routing table: both readers
report it as not found, under the resolver prefix, and open nothing. -/
theorem readers_propagate_resolver_error_witness :
    (ReadStepVersionInfo demoWorld "nope" "script" "").1 =
        (StepVersionModel.zero, "",
          some "Failed to get spec json path: Specified collection (nope) not found in routing") ∧
      opens (ReadStepVersionInfo demoWorld "nope" "script" "").2.log = [] ∧
      (ReadStepCollectionModel [] demoDecodeCollection demoWorld "nope").1 =
        ([], some "Failed to get spec json path: Specified collection (nope) not found in routing") ∧
      opens (ReadStepCollectionModel [] demoDecodeCollection demoWorld "nope").2.log = [] :=
  ⟨congrArg Prod.fst
      (((readers_propagate_resolver_error [] demoDecodeCollection demoWorld "nope"
        "Specified collection (nope) not found in routing" (by decide)).1 "script" "").1),
   ((readers_propagate_resolver_error [] demoDecodeCollection demoWorld "nope"
        "Specified collection (nope) not found in routing" (by decide)).1 "script" "").2,
   congrArg Prod.fst
      (readers_propagate_resolver_error [] demoDecodeCollection demoWorld "nope"
        "Specified collection (nope) not found in routing" (by decide)).2.1,
   (readers_propagate_resolver_error [] demoDecodeCollection demoWorld "nope"
        "Specified collection (nope) not found in routing" (by decide)).2.2⟩

theorem append_left_cancel_string {a b c : String} (h : a ++ b = a ++ c) : b = c := by
  have h2 := congrArg String.data h
  simp only [String.data_append] at h2
  exact String.ext (List.append_cancel_left h2)

/-- C9, as stated, fails.  A routing file holding `null` is not a JSON object,
yet it is decoded without error and the resolver reports the collection as not
found; a spec file holding an object followed by `x` is not valid JSON, yet it
is decoded without error and the lookup reports the step as not found.
Neither result is a parse error. -/
theorem non_object_content_is_not_parse_error :
    (looksLikeJSONObject nullBytes = false ∧
      nullRoutesWorld.AbsPath stepmanRoutesPath = .ok "/home/u/.stepman/routing.json" ∧
      nullRoutesWorld.ReadBytesFromFile "/home/u/.stepman/routing.json" = .ok nullBytes ∧
      (specJSONPathOfCollection nullRoutesWorld "lib").1 =
        ("", some "Specified collection (lib) not found in routing") ∧
      ∀ cause, (specJSONPathOfCollection nullRoutesWorld "lib").1.2 ≠
        some ("Failed to parse content of routing file: " ++ cause)) ∧
    (looksLikeJSONObject trailingBytes = false ∧
      (specJSONPathOfCollection trailingSpecWorld "lib").1 =
        ("/home/u/.stepman/step_collections/tok/spec/spec.json", none) ∧
      trailingSpecWorld.Open "/home/u/.stepman/step_collections/tok/spec/spec.json" =
        .ok trailingBytes ∧
      (ReadStepVersionInfo trailingSpecWorld "lib" "script" "").1 =
        (StepVersionModel.zero, "", some "No Step found for ID: script") ∧
      ∀ cause, (ReadStepVersionInfo trailingSpecWorld "lib" "script" "").1.2.2 ≠
        some ("Failed to parse spec json: " ++ cause)) := by
  have hr : (specJSONPathOfCollection nullRoutesWorld "lib").1 =
      ("", some "Specified collection (lib) not found in routing") := by decide
  have hv : (ReadStepVersionInfo trailingSpecWorld "lib" "script" "").1 =
      (StepVersionModel.zero, "", some "No Step found for ID: script") := by decide
  refine ⟨⟨by decide, by rfl, by rfl, hr, fun cause h => ?_⟩,
    ⟨by decide, by decide, by rfl, hv, fun cause h => ?_⟩⟩
  · rw [hr] at h
    have h2 := congrArg String.data (Option.some.inj h)
    simp only [String.data_append] at h2
    simp at h2
  · rw [hv] at h
    have h2 := congrArg String.data (Option.some.inj h)
    simp only [String.data_append] at h2
    simp at h2

/-- C9, amended.  A parse error is returned exactly when the decoder rejects
the content, and then with zero values only.  Once the routing file is read,
the resolver returns the empty path and `Failed to parse content of routing
file: ` followed by `cause` if and only if `json.Unmarshal` rejects the bytes
with `cause`, for every collection ID.  Once the spec file is opened,
`ReadStepVersionInfo` (for every step and version) and
`ReadStepCollectionModel` return zero values and `Failed to parse spec json: `
followed by `cause` if and only if their decoder rejects the file with
`cause`. -/
theorem parse_error_iff_decoder_rejects {M : Type} (zero : M)
    (decode : Bytes → Except String M) (w : World) :
    (∀ routesAbsPath bytes, w.AbsPath stepmanRoutesPath = .ok routesAbsPath →
      w.ReadBytesFromFile routesAbsPath = .ok bytes →
      ∀ collectionID cause,
        ((specJSONPathOfCollection w collectionID).1 =
            ("", some ("Failed to parse content of routing file: " ++ cause)) ↔
          w.Unmarshal bytes = .error cause)) ∧
    (∀ collectionID path file,
      (specJSONPathOfCollection w collectionID).1 = (path, none) → w.Open path = .ok file →
      ∀ stepID stepVersion cause,
        ((ReadStepVersionInfo w collectionID stepID stepVersion).1 =
            (StepVersionModel.zero, "", some ("Failed to parse spec json: " ++ cause)) ↔
          w.DecodeSpec file = .error cause)) ∧
    (∀ collectionID path file,
      (specJSONPathOfCollection w collectionID).1 = (path, none) → w.Open path = .ok file →
      ∀ cause,
        ((ReadStepCollectionModel zero decode w collectionID).1 =
            (zero, some ("Failed to parse spec json: " ++ cause)) ↔
          decode file = .error cause)) := by
  have neq : ∀ a b : String, a.data ≠ b.data → a ≠ b := fun a b h e => h (congrArg String.data e)
  have k1 : ∀ x cause : String, "Specified collection (" ++ x ++ ") not found in routing" ≠
      "Failed to parse content of routing file: " ++ cause := by
    intro x cause; apply neq; simp [String.data_append]
  have k2 : ∀ cause : String, "Failed to get absolute path of spec.json" ≠
      "Failed to parse content of routing file: " ++ cause := by
    intro cause; apply neq; simp [String.data_append]
  have k3 : ∀ x cause : String, "No Step found for ID: " ++ x ≠
      "Failed to parse spec json: " ++ cause := by
    intro x cause; apply neq; simp [String.data_append]
  have k4 : ∀ x y cause : String,
      "No Step version found for (ID: " ++ x ++ ") (version: " ++ y ++ ")" ≠
      "Failed to parse spec json: " ++ cause := by
    intro x y cause; apply neq; simp [String.data_append]
  refine ⟨fun rp bytes h1 h2 collectionID cause => ?_,
    fun collectionID path file hp ho stepID stepVersion cause => ?_,
    fun collectionID path file hp ho cause => ?_⟩
  · rw [specJSONPathOfCollection_result]
    simp only [h1, h2]
    cases hU : w.Unmarshal bytes with
    | error c =>
      simp only [Prod.mk.injEq, true_and, Option.some.injEq, Except.error.injEq]
      exact ⟨append_left_cancel_string, fun h => by rw [h]⟩
    | ok routeMap =>
      constructor
      · intro h
        dsimp only at h
        cases hL : routeMap.lookup collectionID with
        | none =>
          simp only [hL] at h
          exact absurd (Option.some.inj (Prod.mk.inj h).2) (k1 _ _)
        | some val =>
          simp only [hL] at h
          cases hA : w.AbsPath (specPathOf val) with
          | error c =>
            simp only [hA] at h
            exact absurd (Option.some.inj (Prod.mk.inj h).2) (k2 _)
          | ok p =>
            simp only [hA] at h
            exact absurd (Prod.mk.inj h).2 (by simp)
      · intro h; cases h
  · rw [ReadStepVersionInfo_result, hp]
    simp only [ho]
    cases hD : w.DecodeSpec file with
    | error c =>
      simp only [Prod.mk.injEq, true_and, Option.some.injEq, Except.error.injEq]
      exact ⟨append_left_cancel_string, fun h => by rw [h]⟩
    | ok spec =>
      constructor
      · intro h
        dsimp only at h
        cases hL : spec.Steps.lookup stepID with
        | none =>
          simp only [hL] at h
          exact absurd (Option.some.inj (Prod.mk.inj (Prod.mk.inj h).2).2) (k3 _ _)
        | some stepInfo =>
          simp only [hL] at h
          cases hV : stepInfo.StepVersions.lookup
              (if stepVersion = "" then stepInfo.LatestVersion else stepVersion) with
          | none =>
            simp only [hV] at h
            exact absurd (Option.some.inj (Prod.mk.inj (Prod.mk.inj h).2).2) (k4 _ _ _)
          | some r =>
            simp only [hV] at h
            exact absurd (Prod.mk.inj (Prod.mk.inj h).2).2 (by simp)
      · intro h; cases h
  · rw [ReadStepCollectionModel_result, hp]
    simp only [ho]
    cases hD : decode file with
    | error c =>
      simp only [Prod.mk.injEq, true_and, Option.some.injEq, Except.error.injEq]
      exact ⟨append_left_cancel_string, fun h => by rw [h]⟩
    | ok spec =>
      constructor
      · intro h
        dsimp only at h
        exact absurd (Prod.mk.inj h).2 (by simp)
      · intro h; cases h

/-- C9 amended, on a routing file and on a spec file that the decoders
reject. -/
theorem parse_error_iff_decoder_rejects_witness :
    (specJSONPathOfCollection badRoutesWorld "lib").1 =
        ("", some "Failed to parse content of routing file: unexpected end of JSON input") ∧
      (ReadStepVersionInfo badSpecWorld "lib" "script" "1.0.0").1 =
        (StepVersionModel.zero, "", some "Failed to parse spec json: EOF") ∧
      (ReadStepCollectionModel [] demoDecodeCollection badSpecWorld "lib").1 =
        ([], some "Failed to parse spec json: EOF") :=
  ⟨((parse_error_iff_decoder_rejects [] demoDecodeCollection badRoutesWorld).1
      "/home/u/.stepman/routing.json" [9] (by rfl) (by rfl) "lib"
      "unexpected end of JSON input").mpr (by rfl),
   ((parse_error_iff_decoder_rejects [] demoDecodeCollection badSpecWorld).2.1 "lib"
      "/home/u/.stepman/step_collections/tok/spec/spec.json" [7]
      (by decide) (by rfl) "script" "1.0.0" "EOF").mpr (by rfl),
   ((parse_error_iff_decoder_rejects [] demoDecodeCollection badSpecWorld).2.2 "lib"
      "/home/u/.stepman/step_collections/tok/spec/spec.json" [7]
      (by decide) (by rfl) "EOF").mpr (by rfl)⟩

/-! ### Determinism -/

/-- A world with the same answers as `w` is `w` with another record of calls. -/
theorem world_eq_with_log {w w2 : World} (hA : w2.AbsPath = w.AbsPath)
    (hR : w2.ReadBytesFromFile = w.ReadBytesFromFile) (hO : w2.Open = w.Open)
    (hU : w2.Unmarshal = w.Unmarshal) (hD : w2.DecodeSpec = w.DecodeSpec) :
    w2 = { w with log := w2.log } := by
  cases w
  cases w2
  simp only at hA hR hO hU hD
  subst hA hR hO hU hD
  rfl

theorem specJSONPathOfCollection_congr {M : Type} {decode decode2 : Bytes → Except String M}
    {w w2 : World} {collectionID : String} (h : agreeOnCalls decode decode2 w w2 collectionID) :
    (specJSONPathOfCollection w collectionID).1 = (specJSONPathOfCollection w2 collectionID).1 := by
  obtain ⟨hA, hR, hU, hS, -, -⟩ := h
  rw [specJSONPathOfCollection_result, specJSONPathOfCollection_result, ← hA]
  cases hA1 : w.AbsPath stepmanRoutesPath with
  | error err => rfl
  | ok rp =>
    simp only
    rw [← hR rp hA1]
    cases hR1 : w.ReadBytesFromFile rp with
    | error err => rfl
    | ok bytes =>
      simp only
      rw [← hU rp bytes hA1 hR1]
      cases hU1 : w.Unmarshal bytes with
      | error err => rfl
      | ok routeMap =>
        simp only
        cases hL : routeMap.lookup collectionID with
        | none => rfl
        | some val =>
          simp only
          rw [← hS rp bytes routeMap val hA1 hR1 hU1 hL]

/-- Worlds with the same answers agree on the calls of every run. -/
theorem agreeOnCalls_of_answers {M : Type} (decode : Bytes → Except String M) {w w2 : World}
    (collectionID : String) (hA : w2.AbsPath = w.AbsPath)
    (hR : w2.ReadBytesFromFile = w.ReadBytesFromFile) (hO : w2.Open = w.Open)
    (hU : w2.Unmarshal = w.Unmarshal) (hD : w2.DecodeSpec = w.DecodeSpec) :
    agreeOnCalls decode decode w w2 collectionID :=
  ⟨by rw [hA], fun _ _ => by rw [hR], fun _ _ _ _ => by rw [hU], fun _ _ _ _ _ _ _ _ => by rw [hA],
    fun _ _ => by rw [hO], fun _ _ _ _ => ⟨by rw [hD], rfl⟩⟩

/-- C10, as stated, fails.  The two worlds have the same home directory and
the same files (every read and every open answers alike, and so does JSON
decoding), and the argument is the same; the resolver returns two different
paths, because the routing token names an environment variable that the path
expansion replaces by its value, `a` in one run and `b` in the other. -/
theorem same_files_different_results :
    (relWorld "a").ReadBytesFromFile = (relWorld "b").ReadBytesFromFile ∧
      (relWorld "a").Open = (relWorld "b").Open ∧
      (relWorld "a").Unmarshal = (relWorld "b").Unmarshal ∧
      (relWorld "a").DecodeSpec = (relWorld "b").DecodeSpec ∧
      (relWorld "a").AbsPath "~" = .ok "/home/u" ∧
      (relWorld "b").AbsPath "~" = .ok "/home/u" ∧
      (relWorld "a").AbsPath stepmanRoutesPath = (relWorld "b").AbsPath stepmanRoutesPath ∧
      (specJSONPathOfCollection (relWorld "a") "lib").1 =
        ("/home/u/.stepman/step_collections/a/spec/spec.json", none) ∧
      (specJSONPathOfCollection (relWorld "b") "lib").1 =
        ("/home/u/.stepman/step_collections/b/spec/spec.json", none) ∧
      (specJSONPathOfCollection (relWorld "a") "lib").1 ≠
        (specJSONPathOfCollection (relWorld "b") "lib").1 :=
  ⟨rfl, rfl, rfl, rfl, by rfl, by rfl, by rfl, by decide, by decide, by decide⟩

/-- C10, amended.  The three functions are functions of their arguments and of
the answers to the outside calls they make.  When the calls that a run in `w`
makes get the same answers in `w2`, the runs in `w` and in `w2` return the
same values, for each function; a run leaves the world as it found it except
for the record of calls; so a second run, started where any first run
stopped, returns what it would have returned alone. -/
theorem runs_agree_on_equal_answers {M : Type} (zero : M)
    (decode decode2 : Bytes → Except String M) (w w2 : World)
    (collectionID stepID stepVersion : String)
    (h : agreeOnCalls decode decode2 w w2 collectionID) :
    ((specJSONPathOfCollection w collectionID).1 = (specJSONPathOfCollection w2 collectionID).1 ∧
      (ReadStepCollectionModel zero decode w collectionID).1 =
        (ReadStepCollectionModel zero decode2 w2 collectionID).1 ∧
      (ReadStepVersionInfo w collectionID stepID stepVersion).1 =
        (ReadStepVersionInfo w2 collectionID stepID stepVersion).1) ∧
    ((specJSONPathOfCollection w collectionID).2 =
        { w with log := (specJSONPathOfCollection w collectionID).2.log } ∧
      (ReadStepCollectionModel zero decode w collectionID).2 =
        { w with log := (ReadStepCollectionModel zero decode w collectionID).2.log } ∧
      (ReadStepVersionInfo w collectionID stepID stepVersion).2 =
        { w with log := (ReadStepVersionInfo w collectionID stepID stepVersion).2.log }) ∧
    ((specJSONPathOfCollection (ReadStepVersionInfo w collectionID stepID stepVersion).2
          collectionID).1 = (specJSONPathOfCollection w collectionID).1 ∧
      (ReadStepCollectionModel zero decode
          (ReadStepVersionInfo w collectionID stepID stepVersion).2 collectionID).1 =
        (ReadStepCollectionModel zero decode w collectionID).1 ∧
      (ReadStepVersionInfo (ReadStepVersionInfo w collectionID stepID stepVersion).2
          collectionID stepID stepVersion).1 =
        (ReadStepVersionInfo w collectionID stepID stepVersion).1) := by
  have congrC : ∀ {d d2 : Bytes → Except String M} {a b : World},
      agreeOnCalls d d2 a b collectionID →
      (ReadStepCollectionModel zero d a collectionID).1 =
        (ReadStepCollectionModel zero d2 b collectionID).1 := by
    intro d d2 a b hab
    rw [ReadStepCollectionModel_result, ReadStepCollectionModel_result,
      ← specJSONPathOfCollection_congr hab]
    obtain ⟨-, -, -, -, hO, hD⟩ := hab
    rcases hres : (specJSONPathOfCollection a collectionID).1 with ⟨p, e⟩
    cases e with
    | some err => rfl
    | none =>
      simp only
      rw [← hO p hres]
      cases hO1 : a.Open p with
      | error err => rfl
      | ok file =>
        simp only
        rw [← (hD p file hres hO1).2]
  have congrV : ∀ {d d2 : Bytes → Except String M} {a b : World},
      agreeOnCalls d d2 a b collectionID →
      (ReadStepVersionInfo a collectionID stepID stepVersion).1 =
        (ReadStepVersionInfo b collectionID stepID stepVersion).1 := by
    intro d d2 a b hab
    rw [ReadStepVersionInfo_result, ReadStepVersionInfo_result,
      ← specJSONPathOfCollection_congr hab]
    obtain ⟨-, -, -, -, hO, hD⟩ := hab
    rcases hres : (specJSONPathOfCollection a collectionID).1 with ⟨p, e⟩
    cases e with
    | some err => rfl
    | none =>
      simp only
      rw [← hO p hres]
      cases hO1 : a.Open p with
      | error err => rfl
      | ok file =>
        simp only
        rw [← (hD p file hres hO1).1]
  obtain ⟨fA, fR, fO, fU, fD, -⟩ := specJSONPathOfCollection_frame w collectionID
  have answersC :
      (ReadStepCollectionModel zero decode w collectionID).2.AbsPath = w.AbsPath ∧
      (ReadStepCollectionModel zero decode w collectionID).2.ReadBytesFromFile =
        w.ReadBytesFromFile ∧
      (ReadStepCollectionModel zero decode w collectionID).2.Open = w.Open ∧
      (ReadStepCollectionModel zero decode w collectionID).2.Unmarshal = w.Unmarshal ∧
      (ReadStepCollectionModel zero decode w collectionID).2.DecodeSpec = w.DecodeSpec := by
    rw [ReadStepCollectionModel_world]
    rcases hfull : specJSONPathOfCollection w collectionID with ⟨⟨p, e⟩, w1⟩
    rw [hfull] at fA fR fO fU fD
    cases e with
    | some err => exact ⟨fA, fR, fO, fU, fD⟩
    | none => exact ⟨fA, fR, fO, fU, fD⟩
  have answersV :
      (ReadStepVersionInfo w collectionID stepID stepVersion).2.AbsPath = w.AbsPath ∧
      (ReadStepVersionInfo w collectionID stepID stepVersion).2.ReadBytesFromFile =
        w.ReadBytesFromFile ∧
      (ReadStepVersionInfo w collectionID stepID stepVersion).2.Open = w.Open ∧
      (ReadStepVersionInfo w collectionID stepID stepVersion).2.Unmarshal = w.Unmarshal ∧
      (ReadStepVersionInfo w collectionID stepID stepVersion).2.DecodeSpec = w.DecodeSpec := by
    rw [ReadStepVersionInfo_world]
    rcases hfull : specJSONPathOfCollection w collectionID with ⟨⟨p, e⟩, w1⟩
    rw [hfull] at fA fR fO fU fD
    cases e with
    | some err => exact ⟨fA, fR, fO, fU, fD⟩
    | none => exact ⟨fA, fR, fO, fU, fD⟩
  obtain ⟨cA, cR, cO, cU, cD⟩ := answersC
  obtain ⟨vA, vR, vO, vU, vD⟩ := answersV
  have again := agreeOnCalls_of_answers decode collectionID vA vR vO vU vD
  exact ⟨⟨specJSONPathOfCollection_congr h, congrC h, congrV h⟩,
    ⟨world_eq_with_log fA fR fO fU fD, world_eq_with_log cA cR cO cU cD,
      world_eq_with_log vA vR vO vU vD⟩,
    ⟨(specJSONPathOfCollection_congr again).symm, (congrC again).symm, (congrV again).symm⟩⟩

/-- C10 amended, on the example world and the same world with one more file
that no call looks at: the calls of a lookup in `lib` get the same answers, so
the lookup returns the same values. -/
theorem runs_agree_on_equal_answers_witness :
    agreeOnCalls demoDecodeCollection demoDecodeCollection demoWorld extraFileWorld "lib" ∧
      demoWorld.Open "/tmp/unrelated.json" ≠ extraFileWorld.Open "/tmp/unrelated.json" ∧
      (ReadStepVersionInfo demoWorld "lib" "script" "").1 =
        (ReadStepVersionInfo extraFileWorld "lib" "script" "").1 :=
  have hagree :
      agreeOnCalls demoDecodeCollection demoDecodeCollection demoWorld extraFileWorld "lib" :=
    ⟨rfl,
     fun rp h => by
      have h2 : (Except.ok "/home/u/.stepman/routing.json" : Except String String) = .ok rp := h
      cases h2
      rfl,
     fun _ _ _ _ => rfl,
     fun _ _ _ _ _ _ _ _ => rfl,
     fun p h => by
      have h2 : ("/home/u/.stepman/step_collections/tok/spec/spec.json", (none : GoError)) =
          (p, none) := by
        rw [← h]; decide
      cases h2
      rfl,
     fun _ _ _ _ => ⟨rfl, rfl⟩⟩
  have hdiff : demoWorld.Open "/tmp/unrelated.json" ≠ extraFileWorld.Open "/tmp/unrelated.json" :=
    fun h => by
      have h2 : (Except.error "open /tmp/unrelated.json: no such file or directory" :
          Except String Bytes) = .ok [5] := h
      cases h2
  ⟨hagree, hdiff,
   (runs_agree_on_equal_answers [] demoDecodeCollection demoDecodeCollection demoWorld
      extraFileWorld "lib" "script" "" hagree).1.2.2⟩

end Stepmanutil
